import Mathlib

/-!
Verification development for the mind-map canvas of the visual-muse-chat
repository. The canvas exists in two parallel variants:

* variant A (two-click connect mode) — `MindMapA` below;
* variant B (continuous drag-to-connect) — `MindMapB` below.

Both variants share the graph model (nodes with id/label/type/position,
edges with id/source/target) and the graph mutators `createEdge`,
`addNode`, `deleteSelected`, `saveEdit`. Event handlers are embedded as
transition functions on an explicit canvas-state record; invocations of
the host callback `onNodeSelect` are recorded in an `emitted` log field.
Randomized quantities (`Math.random`-based positions) and the clock
(`Date.now()`) are passed in as explicit inputs.
-/

/-- Node payload: `data: { id, label, type }` of a cytoscape node element. -/
structure NodeData where
  id : String
  label : String
  type : String
  deriving Repr, DecidableEq

/-- Canvas position `{ x, y }` (coordinates abstracted to integers; no claim
depends on their numeric values, only on which record they land in). -/
structure Position where
  x : Int
  y : Int
  deriving Repr, DecidableEq

/-- A node element: data plus position, as passed to `cy.add`. -/
structure NodeEl where
  data : NodeData
  position : Position
  deriving Repr, DecidableEq

/-- Edge payload: `data: { id, source, target }` of a cytoscape edge element. -/
structure EdgeData where
  id : String
  source : String
  target : String
  deriving Repr, DecidableEq

/-- The authoritative element sets held by the cytoscape `Core` instance. -/
structure Graph where
  nodes : List NodeEl
  edges : List EdgeData
  deriving Repr, DecidableEq

/-- The cytoscape selector
`[source="s"][target="t"], [source="t"][target="s"]` used by `createEdge`:
`e` connects the unordered pair `{s, t}` in either direction. -/
def edgeConnects (e : EdgeData) (s t : String) : Bool :=
  (e.source == s && e.target == t) || (e.source == t && e.target == s)

/-- `createEdge(sourceId, targetId)` (identical in part_007 and part_008):
if an edge already connects the pair in either direction, return unchanged;
otherwise add `{ id: edge-<source>-<target>, source, target }`. -/
def createEdge (g : Graph) (sourceId targetId : String) : Graph :=
  if g.edges.any (fun e => edgeConnects e sourceId targetId) then g
  else { g with
         edges := g.edges ++
           [{ id := "edge-" ++ sourceId ++ "-" ++ targetId,
              source := sourceId, target := targetId }] }

/-- The id generated by `addNode`: `` `node-${Date.now()}` `` with the current
clock value passed in explicitly. -/
def genNodeId (now : Nat) : String :=
  "node-" ++ toString now

/-- `cy.remove('#<id>')` on a node id: cytoscape's documented `eles.remove`
semantics removes the node and, as a cascade, every edge connected to it. -/
def cyRemoveNode (g : Graph) (id : String) : Graph :=
  { nodes := g.nodes.filter (fun n => n.data.id ≠ id),
    edges := g.edges.filter (fun e => e.source ≠ id ∧ e.target ≠ id) }

/-- JS `String.prototype.trim()`: strip leading and trailing whitespace
(modeled on the character list so it evaluates by reduction). -/
def jsTrim (s : String) : String :=
  String.mk
    (((s.data.dropWhile Char.isWhitespace).reverse.dropWhile
        Char.isWhitespace).reverse)

/-- `cy.$('#<id>').data('label', lbl)`: overwrite the label of the node with
the given id. -/
def setNodeLabel (g : Graph) (id lbl : String) : Graph :=
  { g with
    nodes := g.nodes.map (fun n =>
      if n.data.id == id then { n with data := { n.data with label := lbl } }
      else n) }

/-- The single seed element of both variants:
`{ data: { id: 'root', label: 'Main Idea', type: 'root' }, position: {x:400,y:300} }`. -/
def rootNode : NodeEl :=
  { data := { id := "root", label := "Main Idea", type := "root" },
    position := { x := 400, y := 300 } }

/-- Initial graph: the root node only, no edges. -/
def initGraph : Graph :=
  { nodes := [rootNode], edges := [] }

/-! ## Variant A: two-click connect mode (part_007) -/

namespace MindMapA

/-- React state of the two-click canvas component, plus an `emitted` log of
`onNodeSelect` invocations (`some d` for a node-data argument, `none` for a
`null` argument), oldest first. -/
structure Canvas where
  graph : Graph
  selectedNode : Option NodeData
  isEditing : Bool
  editText : String
  isConnecting : Bool
  firstNode : Option NodeData
  emitted : List (Option NodeData)
  deriving Repr, DecidableEq

/-- Component mount state: seeded graph, nothing selected, not editing,
not connecting. -/
def initCanvas : Canvas :=
  { graph := initGraph, selectedNode := none, isEditing := false,
    editText := "", isConnecting := false, firstNode := none, emitted := [] }

/-- The `tap` handler on a node (part_007 lines 487–509), taking the tapped
node's data snapshot. -/
def tapNode (s : Canvas) (nodeData : NodeData) : Canvas :=
  if s.isConnecting then
    match s.firstNode with
    | none =>
        { s with firstNode := some nodeData, selectedNode := some nodeData,
                 emitted := s.emitted ++ [some nodeData] }
    | some f =>
        if f.id ≠ nodeData.id then
          { s with graph := createEdge s.graph f.id nodeData.id,
                   isConnecting := false, firstNode := none,
                   selectedNode := some nodeData,
                   emitted := s.emitted ++ [some nodeData] }
        else s
  else
    { s with selectedNode := some nodeData,
             emitted := s.emitted ++ [some nodeData] }

/-- The background `tap` handler (part_007 lines 511–521), for the case
`evt.target === cytoscapeInstance` (tap on empty canvas). -/
def tapBackground (s : Canvas) : Canvas :=
  let s1 :=
    if s.isConnecting then { s with isConnecting := false, firstNode := none }
    else s
  { s1 with selectedNode := none, emitted := s1.emitted ++ [none] }

/-- `addNode(type)` (part_007 lines 548–567). `now` is the `Date.now()`
reading and `pos` the `Math.random`-derived position (both external inputs).
Auto-connects to the selected node when one exists and not in connect mode. -/
def addNode (s : Canvas) (ty : String) (now : Nat) (pos : Position) : Canvas :=
  let nodeId := genNodeId now
  let g1 := { s.graph with
              nodes := s.graph.nodes ++
                [{ data := { id := nodeId, label := "New Idea", type := ty },
                   position := pos }] }
  let g2 :=
    match s.selectedNode with
    | some sel => if !s.isConnecting then createEdge g1 sel.id nodeId else g1
    | none => g1
  { s with graph := g2 }

/-- `deleteSelected` (part_007 lines 569–575): remove the selected node (and
its edges, by the cytoscape cascade), clear the selection, emit `null`. -/
def deleteSelected (s : Canvas) : Canvas :=
  match s.selectedNode with
  | none => s
  | some sel =>
      { s with graph := cyRemoveNode s.graph sel.id, selectedNode := none,
               emitted := s.emitted ++ [none] }

/-- `startEditing` (part_007 lines 577–581). -/
def startEditing (s : Canvas) : Canvas :=
  match s.selectedNode with
  | none => s
  | some sel => { s with editText := sel.label, isEditing := true }

/-- `saveEdit` (part_007 lines 583–592): early return when nothing is
selected or `editText.trim()` is empty (JS falsiness of the empty string);
otherwise commit the trimmed label, close the editor, refresh the selection
snapshot. -/
def saveEdit (s : Canvas) : Canvas :=
  match s.selectedNode with
  | none => s
  | some sel =>
      if jsTrim s.editText == "" then s
      else
        { s with graph := setNodeLabel s.graph sel.id (jsTrim s.editText),
                 isEditing := false, editText := "",
                 selectedNode := some { sel with label := jsTrim s.editText } }

/-- `startConnecting` (part_007 lines 594–599). -/
def startConnecting (s : Canvas) : Canvas :=
  { s with isConnecting := true, firstNode := none, selectedNode := none,
           emitted := s.emitted ++ [none] }

/-- `cancelConnecting` (part_007 lines 601–604). -/
def cancelConnecting (s : Canvas) : Canvas :=
  { s with isConnecting := false, firstNode := none }

end MindMapA

/-! ## Variant B: drag-to-connect (part_008) -/

namespace MindMapB

/-- The `dragStart` record `{ x, y, nodeId }`. -/
structure DragStart where
  x : Int
  y : Int
  nodeId : String
  deriving Repr, DecidableEq

/-- React state of the drag-to-connect canvas component, with the same
`emitted` log of `onNodeSelect` invocations as variant A. -/
structure Canvas where
  graph : Graph
  selectedNode : Option NodeData
  isEditing : Bool
  editText : String
  isDragging : Bool
  dragStart : Option DragStart
  dragEnd : Option Position
  emitted : List (Option NodeData)
  deriving Repr, DecidableEq

/-- Component mount state: seeded graph, nothing selected, no drag. -/
def initCanvas : Canvas :=
  { graph := initGraph, selectedNode := none, isEditing := false,
    editText := "", isDragging := false, dragStart := none, dragEnd := none,
    emitted := [] }

/-- The `tap` handler on a node (part_008 lines 118–125): normal selection,
suppressed while dragging. -/
def tapNode (s : Canvas) (nodeData : NodeData) : Canvas :=
  if !s.isDragging then
    { s with selectedNode := some nodeData,
             emitted := s.emitted ++ [some nodeData] }
  else s

/-- The background `tap` handler (part_008 lines 127–132), for the case
`evt.target === cytoscapeInstance`. -/
def tapBackground (s : Canvas) : Canvas :=
  if !s.isDragging then
    { s with selectedNode := none, emitted := s.emitted ++ [none] }
  else s

/-- `mousedown` on a node (part_008 lines 135–148): start a connection drag
from the node; `pos` is the node's rendered position. -/
def mousedownNode (s : Canvas) (nodeData : NodeData) (pos : Position) : Canvas :=
  { s with isDragging := true,
           dragStart := some { x := pos.x, y := pos.y, nodeId := nodeData.id },
           dragEnd := some pos }

/-- `mousemove` (part_008 lines 150–160): while dragging, track the pointer
as the rubber-band endpoint (visual only; no graph mutation). -/
def mousemove (s : Canvas) (pos : Position) : Canvas :=
  if s.isDragging && s.dragStart.isSome then { s with dragEnd := some pos }
  else s

/-- `resetDragState` (part_008 lines 188–192). -/
def resetDragState (s : Canvas) : Canvas :=
  { s with isDragging := false, dragStart := none, dragEnd := none }

/-- `mouseup` on a node (part_008 lines 162–173): if a drag is in progress,
create the edge when the release target differs from the start node, then
reset the drag state. -/
def mouseupNode (s : Canvas) (targetData : NodeData) : Canvas :=
  match s.dragStart with
  | some d =>
      if s.isDragging then
        let g :=
          if d.nodeId ≠ targetData.id then createEdge s.graph d.nodeId targetData.id
          else s.graph
        resetDragState { s with graph := g }
      else s
  | none => s

/-- `mouseup` with `evt.target === cytoscapeInstance` (part_008 lines
175–179): abort the drag on empty canvas. -/
def mouseupBackground (s : Canvas) : Canvas :=
  if s.isDragging then resetDragState s else s

/-- `addNode(type)` (part_008 lines 212–231); auto-connect is suppressed
while dragging. -/
def addNode (s : Canvas) (ty : String) (now : Nat) (pos : Position) : Canvas :=
  let nodeId := genNodeId now
  let g1 := { s.graph with
              nodes := s.graph.nodes ++
                [{ data := { id := nodeId, label := "New Idea", type := ty },
                   position := pos }] }
  let g2 :=
    match s.selectedNode with
    | some sel => if !s.isDragging then createEdge g1 sel.id nodeId else g1
    | none => g1
  { s with graph := g2 }

/-- `deleteSelected` (part_008 lines 233–239). -/
def deleteSelected (s : Canvas) : Canvas :=
  match s.selectedNode with
  | none => s
  | some sel =>
      { s with graph := cyRemoveNode s.graph sel.id, selectedNode := none,
               emitted := s.emitted ++ [none] }

/-- `startEditing` (part_008 lines 241–245). -/
def startEditing (s : Canvas) : Canvas :=
  match s.selectedNode with
  | none => s
  | some sel => { s with editText := sel.label, isEditing := true }

/-- `saveEdit` (part_008 lines 247–256), identical to variant A. -/
def saveEdit (s : Canvas) : Canvas :=
  match s.selectedNode with
  | none => s
  | some sel =>
      if jsTrim s.editText == "" then s
      else
        { s with graph := setNodeLabel s.graph sel.id (jsTrim s.editText),
                 isEditing := false, editText := "",
                 selectedNode := some { sel with label := jsTrim s.editText } }

end MindMapB

/-! ## Derived graph observations -/

/-- Number of edges connecting the unordered pair `{a, b}`. -/
def countBetween (g : Graph) (a b : String) : Nat :=
  (g.edges.filter (fun e => edgeConnects e a b)).length

/-- Graph invariant: at most one edge between any unordered pair of ids. -/
def atMostOnePerPair (g : Graph) : Prop :=
  ∀ a b : String, countBetween g a b ≤ 1

/-- Id `a` names a node of `g`. -/
def hasNode (g : Graph) (a : String) : Prop :=
  ∃ n ∈ g.nodes, n.data.id = a

/-- All node ids of `g` are pairwise distinct. -/
def nodeIdsUnique (g : Graph) : Prop :=
  (g.nodes.map (fun n => n.data.id)).Nodup

/-! ## Lemmas about `createEdge` -/

lemma edgeConnects_symm (e : EdgeData) (a b : String) :
    edgeConnects e a b = edgeConnects e b a :=
  Bool.or_comm _ _

lemma createEdge_of_connected (g : Graph) (a b : String)
    (h : g.edges.any (fun e => edgeConnects e a b) = true) :
    createEdge g a b = g := by
  simp [createEdge, h]

lemma createEdge_edges_of_not_connected (g : Graph) (a b : String)
    (h : g.edges.any (fun e => edgeConnects e a b) = false) :
    (createEdge g a b).edges =
      g.edges ++ [⟨"edge-" ++ a ++ "-" ++ b, a, b⟩] := by
  simp [createEdge, h]

lemma createEdge_nodes (g : Graph) (a b : String) :
    (createEdge g a b).nodes = g.nodes := by
  unfold createEdge
  cases g.edges.any (fun e => edgeConnects e a b) <;> simp

/-- After `createEdge g a b`, some edge connects the pair `{a, b}`. -/
lemma any_connects_createEdge (g : Graph) (a b : String) :
    ((createEdge g a b).edges.any (fun e => edgeConnects e a b)) = true := by
  cases hany : g.edges.any (fun e => edgeConnects e a b) with
  | true => rw [createEdge_of_connected g a b hany]; exact hany
  | false =>
      rw [createEdge_edges_of_not_connected g a b hany]
      simp [edgeConnects]

lemma any_connects_swap (l : List EdgeData) (a b : String) :
    (l.any (fun e => edgeConnects e a b)) = (l.any (fun e => edgeConnects e b a)) := by
  have hf : (fun e => edgeConnects e a b) = (fun e => edgeConnects e b a) :=
    funext fun e => edgeConnects_symm e a b
  rw [hf]

lemma countBetween_pos_of_any (g : Graph) (a b : String)
    (h : g.edges.any (fun e => edgeConnects e a b) = true) :
    0 < countBetween g a b := by
  rcases List.any_eq_true.mp h with ⟨e, he, hc⟩
  exact List.length_pos_of_mem (List.mem_filter.mpr ⟨he, hc⟩)

lemma countBetween_eq_zero_of_not_any (g : Graph) (a b : String)
    (h : g.edges.any (fun e => edgeConnects e a b) = false) :
    countBetween g a b = 0 := by
  unfold countBetween
  rw [List.length_eq_zero, List.filter_eq_nil_iff]
  intro e he hc
  have htrue : g.edges.any (fun e => edgeConnects e a b) = true :=
    List.any_eq_true.mpr ⟨e, he, hc⟩
  rw [h] at htrue
  exact Bool.false_ne_true htrue

lemma countBetween_createEdge_same (g : Graph) (a b : String)
    (hinv : atMostOnePerPair g) :
    countBetween (createEdge g a b) a b = 1 := by
  cases hany : g.edges.any (fun e => edgeConnects e a b) with
  | true =>
      rw [createEdge_of_connected g a b hany]
      have h1 := countBetween_pos_of_any g a b hany
      have h2 := hinv a b
      omega
  | false =>
      have h0 := countBetween_eq_zero_of_not_any g a b hany
      unfold countBetween at h0 ⊢
      rw [createEdge_edges_of_not_connected g a b hany, List.filter_append,
          List.length_append, h0]
      simp [edgeConnects]

/-- If the fresh edge record for `(a, b)` connects the pair `{x, y}`, the
two unordered pairs coincide. -/
lemma pair_eq_of_connects (a b x y : String)
    (hc : edgeConnects ⟨"edge-" ++ a ++ "-" ++ b, a, b⟩ x y = true) :
    (a = x ∧ b = y) ∨ (a = y ∧ b = x) := by
  simp [edgeConnects] at hc
  tauto

/-- `createEdge` preserves the at-most-one-edge-per-unordered-pair invariant. -/
lemma atMostOnePerPair_createEdge (g : Graph) (a b : String)
    (hinv : atMostOnePerPair g) : atMostOnePerPair (createEdge g a b) := by
  intro x y
  cases hany : g.edges.any (fun e => edgeConnects e a b) with
  | true => rw [createEdge_of_connected g a b hany]; exact hinv x y
  | false =>
      unfold countBetween
      rw [createEdge_edges_of_not_connected g a b hany, List.filter_append,
          List.length_append]
      cases hc : edgeConnects ⟨"edge-" ++ a ++ "-" ++ b, a, b⟩ x y with
      | false =>
          have hx := hinv x y
          unfold countBetween at hx
          simp [List.filter_cons, hc]
          exact hx
      | true =>
          have hxy := pair_eq_of_connects a b x y hc
          have h0 : countBetween g x y = 0 := by
            apply countBetween_eq_zero_of_not_any
            rcases hxy with ⟨ha, hb⟩ | ⟨ha, hb⟩
            · rw [← ha, ← hb]; exact hany
            · rw [any_connects_swap g.edges x y, ← ha, ← hb]; exact hany
          unfold countBetween at h0
          simp [List.filter_cons, hc, h0]

lemma atMostOnePerPair_foldl (g : Graph) (hinv : atMostOnePerPair g)
    (l : List (String × String)) :
    atMostOnePerPair (List.foldl (fun h p => createEdge h p.1 p.2) g l) := by
  induction l generalizing g with
  | nil => exact hinv
  | cons p t ih =>
      exact ih (createEdge g p.1 p.2) (atMostOnePerPair_createEdge g p.1 p.2 hinv)

/-! ## Concrete fixtures for witnesses and scenarios -/

/-- A sample primary node. -/
def nodeP : NodeData := { id := "p", label := "P", type := "primary" }

/-- A sample secondary node. -/
def nodeQ : NodeData := { id := "q", label := "Q", type := "secondary" }

/-- A throwaway position. -/
def posZero : Position := { x := 0, y := 0 }

/-- Two-node graph: the root plus `nodeP`, no edges. -/
def gRP : Graph :=
  { nodes := [rootNode, { data := nodeP, position := posZero }], edges := [] }

lemma gRP_atMostOne : atMostOnePerPair gRP := by
  intro a b
  simp [countBetween, gRP]

/-- One-node graph already carrying a self-loop on `p`. -/
def gLoop : Graph :=
  { nodes := [{ data := nodeP, position := posZero }],
    edges := [{ id := "edge-p-p", source := "p", target := "p" }] }

/-- Variant-A state in connect mode with the root provisionally held. -/
def sConnA : MindMapA.Canvas :=
  { MindMapA.initCanvas with
    isConnecting := true,
    firstNode := some rootNode.data,
    selectedNode := some rootNode.data }

/-- Variant-B state mid-drag starting from the root. -/
def sDragB : MindMapB.Canvas :=
  { MindMapB.initCanvas with
    isDragging := true,
    dragStart := some { x := 400, y := 300, nodeId := "root" },
    dragEnd := some posZero }

/-! ## Claim theorems -/

/-- C1: for distinct nodes A and B present in the graph (with at most one
edge per unordered pair), calling `createEdge` twice with the pair — the
second time in either argument order — leaves exactly one edge between A
and B: the second call is the identity, and every sequence of `createEdge`
calls preserves the at-most-one-edge invariant. -/
theorem C1_createEdge_once_per_pair (g : Graph) (A B : String)
    (l : List (String × String)) (hAB : A ≠ B) (hA : hasNode g A)
    (hB : hasNode g B) (hinv : atMostOnePerPair g) :
    createEdge (createEdge g A B) A B = createEdge g A B ∧
    createEdge (createEdge g A B) B A = createEdge g A B ∧
    countBetween (createEdge (createEdge g A B) B A) A B = 1 ∧
    atMostOnePerPair (List.foldl (fun h p => createEdge h p.1 p.2) g l) := by
  have h1 : createEdge (createEdge g A B) A B = createEdge g A B :=
    createEdge_of_connected _ A B (any_connects_createEdge g A B)
  have hswap : ((createEdge g A B).edges.any (fun e => edgeConnects e B A)) = true := by
    rw [← any_connects_swap]
    exact any_connects_createEdge g A B
  have h2 : createEdge (createEdge g A B) B A = createEdge g A B :=
    createEdge_of_connected _ B A hswap
  refine ⟨h1, h2, ?_, atMostOnePerPair_foldl g hinv l⟩
  rw [h2]
  exact countBetween_createEdge_same g A B hinv

theorem C1_createEdge_once_per_pair_witness :
    "root" ≠ "p" ∧ atMostOnePerPair gRP ∧
    (createEdge (createEdge gRP "root" "p") "root" "p" = createEdge gRP "root" "p" ∧
     createEdge (createEdge gRP "root" "p") "p" "root" = createEdge gRP "root" "p" ∧
     countBetween (createEdge (createEdge gRP "root" "p") "p" "root") "root" "p" = 1 ∧
     atMostOnePerPair
       (List.foldl (fun h p => createEdge h p.1 p.2) gRP [("root", "p")])) :=
  ⟨by decide, gRP_atMostOne,
   C1_createEdge_once_per_pair gRP "root" "p" [("root", "p")] (by decide)
     ⟨rootNode, by simp [gRP], rfl⟩
     ⟨{ data := nodeP, position := posZero }, by simp [gRP], rfl⟩
     gRP_atMostOne⟩

/-- C2 counterexample: `createEdge` called with source = target on a graph
holding node `p` and no edges inserts a self-loop — the edge count changes,
so `addEdge(X, X)` is not a no-op at the `createEdge` level. -/
theorem C2_counterexample_self_loop_inserted :
    (createEdge gRP "p" "p").edges.length ≠ gRP.edges.length := by decide

/-- C2 (amended): `createEdge` itself does not test for source = target —
it is a no-op on equal ids only when an edge already connects the pair —
but every caller passes distinct ids: in the two-click variant a second tap
on the held node leaves the edge set unchanged, and in the drag variant a
release on the start node leaves the edge set unchanged. -/
theorem C2_self_edge_noop_amended :
    (∀ (g : Graph) (X : String),
       g.edges.any (fun e => edgeConnects e X X) = true → createEdge g X X = g) ∧
    (∀ (s : MindMapA.Canvas) (f n : NodeData),
       s.isConnecting = true → s.firstNode = some f → n.id = f.id →
       (MindMapA.tapNode s n).graph.edges = s.graph.edges) ∧
    (∀ (s : MindMapB.Canvas) (d : MindMapB.DragStart) (n : NodeData),
       s.dragStart = some d → n.id = d.nodeId →
       (MindMapB.mouseupNode s n).graph.edges = s.graph.edges) := by
  refine ⟨fun g X h => createEdge_of_connected g X X h, ?_, ?_⟩
  · intro s f n hc hf hid
    simp [MindMapA.tapNode, hc, hf, hid]
  · intro s d n hd hid
    cases hdrag : s.isDragging <;>
      simp [MindMapB.mouseupNode, MindMapB.resetDragState, hd, hid, hdrag]

theorem C2_self_edge_noop_amended_witness :
    createEdge gLoop "p" "p" = gLoop ∧
    (MindMapA.tapNode sConnA rootNode.data).graph.edges = sConnA.graph.edges ∧
    (MindMapB.mouseupNode sDragB rootNode.data).graph.edges = sDragB.graph.edges :=
  ⟨C2_self_edge_noop_amended.1 gLoop "p" (by decide),
   C2_self_edge_noop_amended.2.1 sConnA rootNode.data rootNode.data rfl rfl rfl,
   C2_self_edge_noop_amended.2.2 sDragB
     { x := 400, y := 300, nodeId := "root" } rootNode.data rfl rfl⟩

/-- C3: deleting the selected node removes it and cascades to every edge
whose source or target is its id, in both canvas variants (stated with the
executable `List.all` so the property evaluates on concrete graphs). -/
theorem C3_delete_cascades_edges (s : MindMapA.Canvas) (sB : MindMapB.Canvas)
    (sel selB : NodeData) (hsel : s.selectedNode = some sel)
    (hselB : sB.selectedNode = some selB) :
    ((MindMapA.deleteSelected s).graph.nodes.all
       (fun n => n.data.id ≠ sel.id)) = true ∧
    ((MindMapA.deleteSelected s).graph.edges.all
       (fun e => e.source ≠ sel.id && e.target ≠ sel.id)) = true ∧
    ((MindMapB.deleteSelected sB).graph.nodes.all
       (fun n => n.data.id ≠ selB.id)) = true ∧
    ((MindMapB.deleteSelected sB).graph.edges.all
       (fun e => e.source ≠ selB.id && e.target ≠ selB.id)) = true := by
  have hA : (MindMapA.deleteSelected s).graph = cyRemoveNode s.graph sel.id := by
    simp [MindMapA.deleteSelected, hsel]
  have hB : (MindMapB.deleteSelected sB).graph = cyRemoveNode sB.graph selB.id := by
    simp [MindMapB.deleteSelected, hselB]
  rw [hA, hB]
  refine ⟨?_, ?_, ?_, ?_⟩ <;>
    · rw [List.all_eq_true]
      intro x hx
      have hmem := (List.mem_filter.mp hx).2
      simp at hmem ⊢
      tauto

/-- Graph holding the root and `nodeP` joined by one edge. -/
def gRPedge : Graph :=
  { nodes := [rootNode, { data := nodeP, position := posZero }],
    edges := [{ id := "edge-root-p", source := "root", target := "p" }] }

/-- Variant-A state with `nodeP` selected in `gRPedge`. -/
def sSelA : MindMapA.Canvas :=
  { MindMapA.initCanvas with graph := gRPedge, selectedNode := some nodeP }

/-- Variant-B state with `nodeP` selected in `gRPedge`. -/
def sSelB : MindMapB.Canvas :=
  { MindMapB.initCanvas with graph := gRPedge, selectedNode := some nodeP }

theorem C3_delete_cascades_edges_witness :
    ((MindMapA.deleteSelected sSelA).graph.nodes.all
       (fun n => n.data.id ≠ nodeP.id)) = true ∧
    ((MindMapA.deleteSelected sSelA).graph.edges.all
       (fun e => e.source ≠ nodeP.id && e.target ≠ nodeP.id)) = true ∧
    ((MindMapB.deleteSelected sSelB).graph.nodes.all
       (fun n => n.data.id ≠ nodeP.id)) = true ∧
    ((MindMapB.deleteSelected sSelB).graph.edges.all
       (fun e => e.source ≠ nodeP.id && e.target ≠ nodeP.id)) = true :=
  C3_delete_cascades_edges sSelA sSelB nodeP nodeP rfl rfl

/-- C4: node ids are generated as `node-<Date.now()>`; two `addNode` calls
within the same millisecond (clock reading 1000 both times, nothing
selected) produce two nodes carrying the same id `node-1000`, violating
within-session id uniqueness. -/
theorem C4_timestamp_id_collision :
    ((MindMapA.addNode (MindMapA.addNode MindMapA.initCanvas "primary" 1000 posZero)
        "primary" 1000 posZero).graph.nodes.map (fun n => n.data.id)) =
      ["root", "node-1000", "node-1000"] ∧
    ¬ nodeIdsUnique
        (MindMapA.addNode (MindMapA.addNode MindMapA.initCanvas "primary" 1000 posZero)
          "primary" 1000 posZero).graph := by
  constructor
  · decide
  · unfold nodeIdsUnique
    decide

/-- C5: with a node selected, the editor open, and an edit text that trims
to the empty string, `saveEdit` is the identity in both variants: the prior
label is unchanged and `isEditing` stays true (the editor remains open). -/
theorem C5_blank_edit_rejected (s : MindMapA.Canvas) (sB : MindMapB.Canvas)
    (sel selB : NodeData)
    (hsel : s.selectedNode = some sel) (hed : s.isEditing = true)
    (htrim : jsTrim s.editText = "")
    (hselB : sB.selectedNode = some selB) (hedB : sB.isEditing = true)
    (htrimB : jsTrim sB.editText = "") :
    MindMapA.saveEdit s = s ∧ (MindMapA.saveEdit s).isEditing = true ∧
    MindMapB.saveEdit sB = sB ∧ (MindMapB.saveEdit sB).isEditing = true := by
  have h1 : MindMapA.saveEdit s = s := by
    simp [MindMapA.saveEdit, hsel, htrim]
  have h2 : MindMapB.saveEdit sB = sB := by
    simp [MindMapB.saveEdit, hselB, htrimB]
  exact ⟨h1, by rw [h1]; exact hed, h2, by rw [h2]; exact hedB⟩

/-- Variant-A state editing `nodeP` with whitespace-only edit text. -/
def sEditBlankA : MindMapA.Canvas :=
  { MindMapA.initCanvas with
    graph := gRPedge,
    selectedNode := some nodeP,
    isEditing := true,
    editText := "   " }

/-- Variant-B state editing `nodeP` with whitespace-only edit text. -/
def sEditBlankB : MindMapB.Canvas :=
  { MindMapB.initCanvas with
    graph := gRPedge,
    selectedNode := some nodeP,
    isEditing := true,
    editText := "   " }

theorem C5_blank_edit_rejected_witness :
    MindMapA.saveEdit sEditBlankA = sEditBlankA ∧
    (MindMapA.saveEdit sEditBlankA).isEditing = true ∧
    MindMapB.saveEdit sEditBlankB = sEditBlankB ∧
    (MindMapB.saveEdit sEditBlankB).isEditing = true :=
  C5_blank_edit_rejected sEditBlankA sEditBlankB nodeP nodeP
    rfl rfl (by decide) rfl rfl (by decide)

/-- C6: aborting an in-progress edge creation — tapping empty canvas or
pressing Cancel in the two-click variant; releasing the pointer on empty
canvas or on the start node in the drag variant — leaves the edge set
unchanged and clears the provisionally held node / drag origin. -/
theorem C6_abort_connection_no_mutation (s : MindMapA.Canvas)
    (sB sB' : MindMapB.Canvas) (d d' : MindMapB.DragStart) (n : NodeData)
    (hc : s.isConnecting = true)
    (hd : sB.dragStart = some d) (hdrag : sB.isDragging = true)
    (hd' : sB'.dragStart = some d') (hdrag' : sB'.isDragging = true)
    (hn : n.id = d'.nodeId) :
    ((MindMapA.tapBackground s).graph.edges = s.graph.edges ∧
     (MindMapA.tapBackground s).isConnecting = false ∧
     (MindMapA.tapBackground s).firstNode = none) ∧
    ((MindMapA.cancelConnecting s).graph.edges = s.graph.edges ∧
     (MindMapA.cancelConnecting s).isConnecting = false ∧
     (MindMapA.cancelConnecting s).firstNode = none) ∧
    ((MindMapB.mouseupBackground sB).graph.edges = sB.graph.edges ∧
     (MindMapB.mouseupBackground sB).isDragging = false ∧
     (MindMapB.mouseupBackground sB).dragStart = none) ∧
    ((MindMapB.mouseupNode sB' n).graph.edges = sB'.graph.edges ∧
     (MindMapB.mouseupNode sB' n).isDragging = false ∧
     (MindMapB.mouseupNode sB' n).dragStart = none) := by
  refine ⟨⟨?_, ?_, ?_⟩, ⟨?_, ?_, ?_⟩, ⟨?_, ?_, ?_⟩, ⟨?_, ?_, ?_⟩⟩ <;>
    simp [MindMapA.tapBackground, MindMapA.cancelConnecting,
          MindMapB.mouseupBackground, MindMapB.mouseupNode,
          MindMapB.resetDragState, hc, hd, hdrag, hd', hdrag', hn]

theorem C6_abort_connection_no_mutation_witness :
    ((MindMapA.tapBackground sConnA).graph.edges = sConnA.graph.edges ∧
     (MindMapA.tapBackground sConnA).isConnecting = false ∧
     (MindMapA.tapBackground sConnA).firstNode = none) ∧
    ((MindMapA.cancelConnecting sConnA).graph.edges = sConnA.graph.edges ∧
     (MindMapA.cancelConnecting sConnA).isConnecting = false ∧
     (MindMapA.cancelConnecting sConnA).firstNode = none) ∧
    ((MindMapB.mouseupBackground sDragB).graph.edges = sDragB.graph.edges ∧
     (MindMapB.mouseupBackground sDragB).isDragging = false ∧
     (MindMapB.mouseupBackground sDragB).dragStart = none) ∧
    ((MindMapB.mouseupNode sDragB rootNode.data).graph.edges = sDragB.graph.edges ∧
     (MindMapB.mouseupNode sDragB rootNode.data).isDragging = false ∧
     (MindMapB.mouseupNode sDragB rootNode.data).dragStart = none) :=
  C6_abort_connection_no_mutation sConnA sDragB sDragB
    { x := 400, y := 300, nodeId := "root" }
    { x := 400, y := 300, nodeId := "root" }
    rootNode.data rfl rfl rfl rfl rfl rfl

/-- C7: in the two-click variant, from Connecting with first node f held,
tapping a node n with a different id creates the edge (f, n), exits connect
mode clearing the held node, selects n, and reports n through the selection
callback. -/
theorem C7_second_tap_connects (s : MindMapA.Canvas) (f n : NodeData)
    (hc : s.isConnecting = true) (hf : s.firstNode = some f)
    (hne : f.id ≠ n.id) :
    (MindMapA.tapNode s n).graph = createEdge s.graph f.id n.id ∧
    (MindMapA.tapNode s n).isConnecting = false ∧
    (MindMapA.tapNode s n).firstNode = none ∧
    (MindMapA.tapNode s n).selectedNode = some n ∧
    (MindMapA.tapNode s n).emitted = s.emitted ++ [some n] := by
  simp [MindMapA.tapNode, hc, hf, hne]

theorem C7_second_tap_connects_witness :
    (MindMapA.tapNode sConnA nodeP).graph =
      createEdge sConnA.graph rootNode.data.id nodeP.id ∧
    (MindMapA.tapNode sConnA nodeP).isConnecting = false ∧
    (MindMapA.tapNode sConnA nodeP).firstNode = none ∧
    (MindMapA.tapNode sConnA nodeP).selectedNode = some nodeP ∧
    (MindMapA.tapNode sConnA nodeP).emitted = sConnA.emitted ++ [some nodeP] :=
  C7_second_tap_connects sConnA rootNode.data nodeP rfl rfl (by decide)

/-- C8: initialization seeds exactly the root node (id `root`, label
"Main Idea", type root) with no edges; adding a node with nothing selected
gives 2 nodes and 0 edges; after selecting the root by tap, adding another
node gives 3 nodes and exactly the one auto-connect edge from the root to
the new node. -/
theorem C8_seed_and_add_scenario :
    MindMapA.initCanvas.graph = { nodes := [rootNode], edges := [] } ∧
    rootNode.data = { id := "root", label := "Main Idea", type := "root" } ∧
    MindMapA.initCanvas.selectedNode = none ∧
    (MindMapA.addNode MindMapA.initCanvas "primary" 1 posZero).graph.nodes.length = 2 ∧
    (MindMapA.addNode MindMapA.initCanvas "primary" 1 posZero).graph.edges.length = 0 ∧
    (MindMapA.addNode
      (MindMapA.tapNode (MindMapA.addNode MindMapA.initCanvas "primary" 1 posZero)
        rootNode.data) "primary" 2 posZero).graph.nodes.length = 3 ∧
    (MindMapA.addNode
      (MindMapA.tapNode (MindMapA.addNode MindMapA.initCanvas "primary" 1 posZero)
        rootNode.data) "primary" 2 posZero).graph.edges =
      [{ id := "edge-root-node-2", source := "root", target := "node-2" }] := by
  refine ⟨rfl, rfl, rfl, ?_, ?_, ?_, ?_⟩ <;> decide

/-- Variant-A state editing `nodeP` with the non-blank edit text "Renamed". -/
def sEditA : MindMapA.Canvas :=
  { MindMapA.initCanvas with
    graph := gRPedge,
    selectedNode := some nodeP,
    isEditing := true,
    editText := "Renamed" }

/-- C9 counterexample: committing a label edit through `saveEdit` changes
the selection value (the selected node's data snapshot gets the new label)
but the `onNodeSelect` log is unchanged — the callback is not invoked on
this selection-value change, refuting the claim as stated. -/
theorem C9_counterexample_saveEdit_no_callback :
    (MindMapA.saveEdit sEditA).selectedNode ≠ sEditA.selectedNode ∧
    (MindMapA.saveEdit sEditA).emitted = sEditA.emitted := by
  constructor
  · decide
  · rfl

/-- C9 (amended): `onNodeSelect` is invoked with the new selection value on
node tap-select, on clearing by background tap, and on deleting the
selected node, in both variants; `saveEdit`, however, updates the local
selection snapshot without ever invoking the callback. -/
theorem C9_selection_callback_amended :
    (∀ (s : MindMapA.Canvas) (n : NodeData), s.isConnecting = false →
       (MindMapA.tapNode s n).selectedNode = some n ∧
       (MindMapA.tapNode s n).emitted = s.emitted ++ [some n]) ∧
    (∀ s : MindMapA.Canvas,
       (MindMapA.tapBackground s).selectedNode = none ∧
       (MindMapA.tapBackground s).emitted = s.emitted ++ [none]) ∧
    (∀ (s : MindMapA.Canvas) (sel : NodeData), s.selectedNode = some sel →
       (MindMapA.deleteSelected s).selectedNode = none ∧
       (MindMapA.deleteSelected s).emitted = s.emitted ++ [none]) ∧
    (∀ s : MindMapA.Canvas, (MindMapA.saveEdit s).emitted = s.emitted) ∧
    (∀ (s : MindMapB.Canvas) (n : NodeData), s.isDragging = false →
       (MindMapB.tapNode s n).selectedNode = some n ∧
       (MindMapB.tapNode s n).emitted = s.emitted ++ [some n]) ∧
    (∀ s : MindMapB.Canvas, s.isDragging = false →
       (MindMapB.tapBackground s).selectedNode = none ∧
       (MindMapB.tapBackground s).emitted = s.emitted ++ [none]) ∧
    (∀ (s : MindMapB.Canvas) (sel : NodeData), s.selectedNode = some sel →
       (MindMapB.deleteSelected s).selectedNode = none ∧
       (MindMapB.deleteSelected s).emitted = s.emitted ++ [none]) ∧
    (∀ s : MindMapB.Canvas, (MindMapB.saveEdit s).emitted = s.emitted) := by
  refine ⟨?_, ?_, ?_, ?_, ?_, ?_, ?_, ?_⟩
  · intro s n hc
    simp [MindMapA.tapNode, hc]
  · intro s
    cases hc : s.isConnecting <;> simp [MindMapA.tapBackground, hc]
  · intro s sel h
    simp [MindMapA.deleteSelected, h]
  · intro s
    unfold MindMapA.saveEdit
    split
    · rfl
    · split <;> rfl
  · intro s n hd
    simp [MindMapB.tapNode, hd]
  · intro s hd
    simp [MindMapB.tapBackground, hd]
  · intro s sel h
    simp [MindMapB.deleteSelected, h]
  · intro s
    unfold MindMapB.saveEdit
    split
    · rfl
    · split <;> rfl

theorem C9_selection_callback_amended_witness :
    ((MindMapA.tapNode MindMapA.initCanvas nodeP).selectedNode = some nodeP ∧
     (MindMapA.tapNode MindMapA.initCanvas nodeP).emitted =
       MindMapA.initCanvas.emitted ++ [some nodeP]) ∧
    ((MindMapA.tapBackground MindMapA.initCanvas).selectedNode = none ∧
     (MindMapA.tapBackground MindMapA.initCanvas).emitted =
       MindMapA.initCanvas.emitted ++ [none]) ∧
    ((MindMapA.deleteSelected sSelA).selectedNode = none ∧
     (MindMapA.deleteSelected sSelA).emitted = sSelA.emitted ++ [none]) ∧
    (MindMapA.saveEdit sEditA).emitted = sEditA.emitted ∧
    ((MindMapB.tapNode MindMapB.initCanvas nodeP).selectedNode = some nodeP ∧
     (MindMapB.tapNode MindMapB.initCanvas nodeP).emitted =
       MindMapB.initCanvas.emitted ++ [some nodeP]) ∧
    ((MindMapB.tapBackground MindMapB.initCanvas).selectedNode = none ∧
     (MindMapB.tapBackground MindMapB.initCanvas).emitted =
       MindMapB.initCanvas.emitted ++ [none]) ∧
    ((MindMapB.deleteSelected sSelB).selectedNode = none ∧
     (MindMapB.deleteSelected sSelB).emitted = sSelB.emitted ++ [none]) ∧
    (MindMapB.saveEdit sEditBlankB).emitted = sEditBlankB.emitted :=
  ⟨C9_selection_callback_amended.1 MindMapA.initCanvas nodeP rfl,
   C9_selection_callback_amended.2.1 MindMapA.initCanvas,
   C9_selection_callback_amended.2.2.1 sSelA nodeP rfl,
   C9_selection_callback_amended.2.2.2.1 sEditA,
   C9_selection_callback_amended.2.2.2.2.1 MindMapB.initCanvas nodeP rfl,
   C9_selection_callback_amended.2.2.2.2.2.1 MindMapB.initCanvas rfl,
   C9_selection_callback_amended.2.2.2.2.2.2.1 sSelB nodeP rfl,
   C9_selection_callback_amended.2.2.2.2.2.2.2 sEditBlankB⟩

/-- C10: in the two-click variant, while Connecting with first node f held,
tapping a node with the same id is a full no-op: the state — edge set,
connect mode, held node, selection, and callback log — is unchanged. -/
theorem C10_second_tap_same_node_noop (s : MindMapA.Canvas) (f n : NodeData)
    (hc : s.isConnecting = true) (hf : s.firstNode = some f)
    (hid : n.id = f.id) :
    MindMapA.tapNode s n = s := by
  simp [MindMapA.tapNode, hc, hf, hid]

theorem C10_second_tap_same_node_noop_witness :
    MindMapA.tapNode sConnA rootNode.data = sConnA :=
  C10_second_tap_same_node_noop sConnA rootNode.data rootNode.data rfl rfl rfl
